import Mathlib

/-!
Shallow embedding of `src/sdi12_adapter.ino` (hydrogeologger/sdi12_adapter).

The repository sources under `src/` contain the Arduino sketch only; the
SDI12Slave / SDI12Sensor / SDI12CRC library code (command parsing, state
configuration, value encoding, CRC, bus transport) is external to `src/`.
Those collaborators are modelled from the specification where a claim needs
them; every such definition carries a doc comment starting with
`Modelled from the spec:`.  Everything else is translated directly from the
sketch.
-/

namespace SDI12Adapter

/-- Outbound response terminator (`<CR><LF>`). -/
def CRLF : String := "\r\n"

/-- `#define SDI12SENSOR_SDI12_PROTOCOL "14"` -/
def SDI12SENSOR_SDI12_PROTOCOL : String := "14"

/-- `#define SDI12SENSOR_COMPANY "UQGEC___"` -/
def SDI12SENSOR_COMPANY : String := "UQGEC___"

/-- `#define SDI12SENSOR_MODEL "ADA001"` -/
def SDI12SENSOR_MODEL : String := "ADA001"

/-- `#define SDI12SENSOR_VERSION "1.0"` -/
def SDI12SENSOR_VERSION : String := "1.0"

/-- `#define SDI12SENSOR_OTHER_INFO "SDI12ADAPTER"` -/
def SDI12SENSOR_OTHER_INFO : String := "SDI12ADAPTER"

/-- `#define MEASUREMENT_ARRAY_MAX_SIZE 9` -/
def MEASUREMENT_ARRAY_MAX_SIZE : Nat := 9

/-- `#define DATA_OUT_BUFFER_ARR_SIZE 10` -/
def DATA_OUT_BUFFER_ARR_SIZE : Nat := 10

/-- Modelled from the spec: library constant `SDI12_VALUES_STR_SIZE_35`, the
maximum data-line length for M-class commands (35). -/
def SDI12_VALUES_STR_SIZE_35 : Nat := 35

/-- Modelled from the spec: library constant `SDI12_VALUES_STR_SIZE_75`, the
maximum data-line length for C/H-class commands (75). -/
def SDI12_VALUES_STR_SIZE_75 : Nat := 75

/-- Modelled from the spec: library constant `kInvalidDataType`, the 1-byte
data-type tag written on the unimplemented byte-data path.  Its concrete
value is irrelevant to every claim; a fixed tag suffices. -/
def kInvalidDataType : Nat := 0

/-- `typedef enum DeviceMode_e { kModeAnalog, kModeUART, kModeI2C }` -/
inductive DeviceMode_e where
  | kModeAnalog
  | kModeUART
  | kModeI2C
deriving DecidableEq, Repr

/-- Primary/secondary command verbs of the parsed command structure
(`SDI12CommandSet_s`), as enumerated by the spec data model. -/
inductive SDI12Cmd where
  | kAddressQuery
  | kIdentify
  | kAcknowledge
  | kAddressChange
  | kDataRequest
  | kByteDataRequest
  | kMeasurement
  | kConcurrentMeasurement
  | kHighVolumeASCII
  | kHighVolumeByte
  | kContinuousMeasurement
  | kVerify
  | kUnknown
deriving DecidableEq, Repr

/-- The parsed command structure `SDI12CommandSet_s`: address field, primary
and secondary verbs, two numeric parameters and the CRC-requested flag.
`param1` carries the data/measurement index, or for an address change the
code point of the new address character. -/
structure SDI12CommandSet_s where
  address : Char
  primary : SDI12Cmd
  secondary : SDI12Cmd
  param1 : Nat
  param2 : Nat
  crcRequested : Bool
deriving DecidableEq, Repr

/-- Modelled from the spec: a `ParsedCommand` is constructed fresh per
incoming command with both verbs unset (`Unknown`) and numeric parameters
defaulted to 0.  This is the value of the local `SDI12CommandSet_s
parsed_cmd` in `loop()` when no complete command was parsed this cycle. -/
def freshCommandSet : SDI12CommandSet_s :=
  { address := Char.ofNat 0
    primary := .kUnknown
    secondary := .kUnknown
    param1 := 0
    param2 := 0
    crcRequested := false }

/-- Numeric value of a decimal digit character. -/
def digitVal (c : Char) : Nat := c.toNat - 48

/-- Numeric value of a string of decimal digits (lenient fold). -/
def digitsVal (cs : List Char) : Nat :=
  cs.foldl (fun a c => a * 10 + digitVal c) 0

/-- Modelled from the spec: sub-verb portion of an Identify metadata query
(`aIX_NNN!`): a measurement-class sub-verb, an optional measurement index
(`param1`) and a numeric group index (`param2`). -/
def parseIdentifyRest : List Char → SDI12Cmd × Nat × Nat
  | [] => (.kUnknown, 0, 0)
  | ['M'] => (.kMeasurement, 0, 0)
  | ['C'] => (.kConcurrentMeasurement, 0, 0)
  | ['V'] => (.kVerify, 0, 0)
  | ['H', 'A'] => (.kHighVolumeASCII, 0, 0)
  | ['H', 'B'] => (.kHighVolumeByte, 0, 0)
  | 'M' :: '_' :: ds => (.kMeasurement, 0, digitsVal ds)
  | 'C' :: '_' :: ds => (.kConcurrentMeasurement, 0, digitsVal ds)
  | 'M' :: d :: '_' :: ds =>
      if d.isDigit then (.kMeasurement, digitVal d, digitsVal ds) else (.kUnknown, 0, 0)
  | 'C' :: d :: '_' :: ds =>
      if d.isDigit then (.kConcurrentMeasurement, digitVal d, digitsVal ds) else (.kUnknown, 0, 0)
  | ['M', d] => if d.isDigit then (.kMeasurement, digitVal d, 0) else (.kUnknown, 0, 0)
  | ['C', d] => if d.isDigit then (.kConcurrentMeasurement, digitVal d, 0) else (.kUnknown, 0, 0)
  | _ => (.kUnknown, 0, 0)

/-- Modelled from the spec: the verb/sub-verb grammar of SDI-12 v1.4 applied
to the characters following the address: bare = Acknowledge, `I` = Identify
(bare or metadata group), `M`/`MC`/`M1-9` = Measurement, `C`/`CC`/`C1-9` =
ConcurrentMeasurement, `HA`/`HB` = HighVolume ASCII/Byte, `D0-9` =
DataRequest, `DB` = ByteDataRequest, `Rn` = ContinuousMeasurement, `V` =
Verify, `An` = AddressChange; a `C` modifier directly after the verb sets
the CRC-requested flag; anything unrecognized is Unknown.  Returns
(primary, secondary, param1, param2, crcRequested). -/
def parseVerb : List Char → SDI12Cmd × SDI12Cmd × Nat × Nat × Bool
  | [] => (.kAcknowledge, .kUnknown, 0, 0, false)
  | ['M'] => (.kMeasurement, .kUnknown, 0, 0, false)
  | ['M', 'C'] => (.kMeasurement, .kUnknown, 0, 0, true)
  | ['M', 'C', d] =>
      if d.isDigit then (.kMeasurement, .kUnknown, digitVal d, 0, true)
      else (.kUnknown, .kUnknown, 0, 0, false)
  | ['M', d] =>
      if d.isDigit then (.kMeasurement, .kUnknown, digitVal d, 0, false)
      else (.kUnknown, .kUnknown, 0, 0, false)
  | ['C'] => (.kConcurrentMeasurement, .kUnknown, 0, 0, false)
  | ['C', 'C'] => (.kConcurrentMeasurement, .kUnknown, 0, 0, true)
  | ['C', 'C', d] =>
      if d.isDigit then (.kConcurrentMeasurement, .kUnknown, digitVal d, 0, true)
      else (.kUnknown, .kUnknown, 0, 0, false)
  | ['C', d] =>
      if d.isDigit then (.kConcurrentMeasurement, .kUnknown, digitVal d, 0, false)
      else (.kUnknown, .kUnknown, 0, 0, false)
  | ['H', 'A'] => (.kHighVolumeASCII, .kUnknown, 0, 0, false)
  | ['H', 'B'] => (.kHighVolumeByte, .kUnknown, 0, 0, false)
  | ['D', 'B'] => (.kByteDataRequest, .kUnknown, 0, 0, false)
  | ['D', d] =>
      if d.isDigit then (.kDataRequest, .kUnknown, digitVal d, 0, false)
      else (.kUnknown, .kUnknown, 0, 0, false)
  | ['R', d] =>
      if d.isDigit then (.kContinuousMeasurement, .kUnknown, digitVal d, 0, false)
      else (.kUnknown, .kUnknown, 0, 0, false)
  | ['R', 'C', d] =>
      if d.isDigit then (.kContinuousMeasurement, .kUnknown, digitVal d, 0, true)
      else (.kUnknown, .kUnknown, 0, 0, false)
  | ['V'] => (.kVerify, .kUnknown, 0, 0, false)
  | ['A', c] => (.kAddressChange, .kUnknown, c.toNat, 0, false)
  | 'I' :: rest =>
      let (sec, p1, p2) := parseIdentifyRest rest
      (.kIdentify, sec, p1, p2, false)
  | _ => (.kUnknown, .kUnknown, 0, 0, false)

/-- Modelled from the spec: `SDI12Sensor::ParseCommand` (library code absent
from `src/`).  The input is the command string without its terminating `!`.
The first character is the address; a lone `?` is the wildcard address
query; the rest follows the verb grammar. -/
def parseCommand (s : String) : SDI12CommandSet_s :=
  match s.data with
  | [] => freshCommandSet
  | a :: rest =>
    if a = '?' ∧ rest = [] then
      { freshCommandSet with address := '?', primary := .kAddressQuery }
    else
      let (p, sec, p1, p2, crc) := parseVerb rest
      { address := a, primary := p, secondary := sec,
        param1 := p1, param2 := p2, crcRequested := crc }

/-- `enum SDI12SensorState_e` — the sensor state machine states. -/
inductive SDI12SensorState_e where
  | kStateLowPower
  | kStateReady
  | kStateMeasurement
  | kStateConcurrent
  | kStateHighMeasurement
  | kStateContinuous
  | kStateVerify
deriving DecidableEq, Repr

/-- The resident `SDI12Sensor` object: mutable single-character address, the
active flag gating whether this device owes a response, the current state,
and the stored CRC-requested flag read by `sensor.CrcRequested()`. -/
structure Sensor where
  address : Char
  active : Bool
  state : SDI12SensorState_e
  crcRequested : Bool
deriving DecidableEq, Repr

/-- Modelled from the spec: `SDI12Sensor::ConfigureState` (library code
absent from `src/`) maps the parsed verb to a target state — Identify,
Acknowledge, AddressChange, DataRequest, ByteDataRequest, Unknown go to
Ready; Measurement to Measurement; ConcurrentMeasurement to Concurrent;
HighVolume ASCII/Byte to HighMeasurement; ContinuousMeasurement to
Continuous; Verify to Verify — and latches the command's CRC-requested
flag on the sensor. -/
def configureState (s : Sensor) (cmd : SDI12CommandSet_s) : Sensor :=
  { s with
    state :=
      match cmd.primary with
      | .kMeasurement => .kStateMeasurement
      | .kConcurrentMeasurement => .kStateConcurrent
      | .kHighVolumeASCII => .kStateHighMeasurement
      | .kHighVolumeByte => .kStateHighMeasurement
      | .kContinuousMeasurement => .kStateContinuous
      | .kVerify => .kStateVerify
      | _ => .kStateReady
    crcRequested := cmd.crcRequested }

/-- The address filter of `parseSdi12Cmd` (sketch lines 63-70): a command is
serviced iff its address equals the device address or it is the wildcard
address query. -/
def cmdMatches (s : Sensor) (c : SDI12CommandSet_s) : Prop :=
  c.address = s.address ∨ c.primary = SDI12Cmd.kAddressQuery

instance (s : Sensor) (c : SDI12CommandSet_s) : Decidable (cmdMatches s c) := by
  unfold cmdMatches; infer_instance

/-! ## The response chunker `formatOutputSDI`

The C function mutates a `String` array through a raw pointer, so the
buffer is embedded as an unbounded index map `ℕ → String`: a write at an
index `≥ DATA_OUT_BUFFER_ARR_SIZE` is a write outside the 10-element array
that every caller passes.

The element/array sizes the function computes are pointer arithmetic on
AVR Arduino (the sketch targets an AVR board: pins `A4`/`A5`, `Wire`,
1200-baud SDI-12):
  * `sizeof(*measurementValues) / sizeof(char*)` = `sizeof(float) /
    sizeof(char*)` = 4 / 2 = 2 — the default measurement count;
  * `sizeof(*data_values) / sizeof(char*)` = `sizeof(String) /
    sizeof(char*)` = 6 / 2 = 3 — the bound of the blank-fill loop
    (note: not the 10-element array length the comment intends).
-/

/-- `sizeof(float) / sizeof(char*)`: default value of `measurement_count`
when the caller passes 0 (AVR: 4 / 2 = 2). -/
def default_measurement_count : Nat := 2

/-- `sizeof(String) / sizeof(char*)`: the value of the local
`data_values_size` (AVR: 6 / 2 = 3). -/
def data_values_size : Nat := 3

/-- One iteration of the chunking loop (sketch lines 134-146): append the
encoded token to the current line if the result stays strictly under
`max_char_size`, else place it on the next line. -/
def chunkStep (max_char_size : Nat) (st : (Nat → String) × Nat) (tok : String) :
    (Nat → String) × Nat :=
  let buf := st.1
  let idx := st.2
  if (buf idx).length + tok.length < max_char_size then
    (Function.update buf idx (buf idx ++ tok), idx)
  else
    (Function.update buf (idx + 1) tok, idx + 1)

/-- The chunking loop over the whole token sequence. -/
def chunkTokens (max_char_size : Nat) (tokens : List String) (buf : Nat → String) :
    (Nat → String) × Nat :=
  tokens.foldl (chunkStep max_char_size) (buf, 0)

/-- The blank-fill loop (sketch lines 149-151): `while (idx < size)
data_values[++idx] = ""` — it executes exactly `size - idx` iterations,
writing `""` at indices `idx+1 .. size` (inclusive). -/
def fillFrom (buf : Nat → String) (idx : Nat) : Nat → (Nat → String)
  | 0 => buf
  | k + 1 => fillFrom (Function.update buf (idx + 1) "") (idx + 1) k

/-- `formatOutputSDI` (sketch lines 122-152) over the already-encoded token
sequence: `tokens.get i` is the string `dtoa` produced for
`measurementValues[i]` (the function inspects only that string and its
length).  Sets `data_values[0] = ""`, runs the chunking loop, then the
blank-fill loop bounded by `data_values_size`. -/
def formatOutputSDI (tokens : List String) (max_char_size : Nat)
    (buf : Nat → String) : Nat → String :=
  let st := chunkTokens max_char_size tokens (Function.update buf 0 "")
  fillFrom st.1 st.2 (data_values_size - st.2)

/-- Final value of `data_values_index` after the chunking loop (before the
blank-fill loop). -/
def chunkFinalIdx (tokens : List String) (max_char_size : Nat)
    (buf : Nat → String) : Nat :=
  (chunkTokens max_char_size tokens (Function.update buf 0 "")).2

/-- The all-empty line buffer. -/
def emptyBuf : Nat → String := fun _ => ""

/-! ## The device state and the response dispatcher (`loop()`) -/

/-- The persistent state that `loop()` reads and writes: the resident
sensor object, the `data_out_buffer_arr` 10-element line array (again an
index map), the `measurementValues` array (stored as the raw analog sample
codes written into it), and the `static String commandReceived`
accumulator. -/
structure DeviceState where
  sensor : Sensor
  dataOut : Nat → String
  values : Nat → Nat
  commandReceived : String

/-- The external collaborators a cycle consults, grouped: the boot-chosen
device mode; the value encoder `dtoa` as a function from a raw analog
sample code to its SDI-12 token (Modelled from the spec: sign character
plus at most 7 further characters, deterministic); the CRC helpers
(Modelled from the spec: a fixed 3-character ASCII CRC of the response
body, and the binary CRC word of the byte-data header); the two analog
readings `analogRead` would return this cycle; whether
`slaveSDI12.LineBreakReceived()` reports a break that arrived during the
measurement; and the bytes that arrive on the bus during a
concurrent/high-volume wait. -/
structure Env where
  mode : DeviceMode_e
  encode : Nat → String
  crcAscii : String → String
  crcBinary : Char → Nat
  analog1 : Nat
  analog2 : Nat
  lineBreak : Bool
  waitTraffic : List Char

/-- What `slaveSDI12.available()` reports at the top of `loop()`: a
negative count (receive-buffer overflow) or the pending bytes. -/
inductive BusInput where
  | overflow
  | bytes (cs : List Char)

/-- One transmission: `sendResponse` text, or one of the raw `writeBytes`
overloads used on the byte-data path. -/
inductive Tx where
  | resp (s : String)
  | rawChar (c : Char)
  | rawWord (n : Nat)
  | rawByte (n : Nat)
deriving DecidableEq, Repr

/-- The identification body appended for `aI!` (sketch lines 87-91). -/
def idString : String :=
  SDI12SENSOR_SDI12_PROTOCOL ++ SDI12SENSOR_COMPANY ++ SDI12SENSOR_MODEL ++
    SDI12SENSOR_VERSION ++ SDI12SENSOR_OTHER_INFO

/-- The buffer-clearing loop that appears in the cancellation paths
(e.g. sketch lines 369-371): sets `data_out_buffer_arr[0..9]` to `""`
(here `sizeof` is applied to a genuine array, so the bound is 10). -/
def clearTen (buf : Nat → String) : Nat → String :=
  fun i => if i < DATA_OUT_BUFFER_ARR_SIZE then "" else buf i

/-- A call `formatOutputSDI(measurementValues, data_out_buffer_arr,
max, count)` from `loop()`: the count-0 default applies, and the tokens
passed on are the encodings of the first `count` stored values. -/
def formatOutputSDICall (env : Env) (values : Nat → Nat) (max_char_size : Nat)
    (count : Nat) (buf : Nat → String) : Nat → String :=
  let c := if count = 0 then default_measurement_count else count
  formatOutputSDI ((List.range c).map (fun i => env.encode (values i))) max_char_size buf

/-- `parseSdi12Cmd` (sketch lines 58-112): parse, address-filter, mark
active, configure the state, and service the basic commands (`aI!`, `a!`,
`aAn!`, unknown) inline, transmitting their response when the active flag
was cleared.  Returns the parsed command, the updated device and the
transmissions. -/
def parseSdi12Cmd (dev : DeviceState) (command : String) :
    SDI12CommandSet_s × DeviceState × List Tx :=
  let parsed := parseCommand command
  if parsed.address = dev.sensor.address then
    let s1 := configureState { dev.sensor with active := true } parsed
    let pair :=
      if parsed.primary = SDI12Cmd.kIdentify ∧ parsed.secondary = SDI12Cmd.kUnknown then
        ({ s1 with active := false }, String.singleton s1.address ++ idString)
      else if parsed.primary = SDI12Cmd.kAcknowledge then
        ({ s1 with active := false }, String.singleton s1.address)
      else if parsed.primary = SDI12Cmd.kAddressChange then
        let s2 := { s1 with address := Char.ofNat parsed.param1 }
        ({ s2 with active := false }, String.singleton s2.address)
      else if parsed.primary = SDI12Cmd.kUnknown then
        ({ s1 with active := false }, String.singleton s1.address ++ "UNK\r\n")
      else (s1, String.singleton s1.address)
    if pair.1.active then
      (parsed, { dev with sensor := pair.1 }, [])
    else
      (parsed, { dev with sensor := pair.1 }, [Tx.resp (pair.2 ++ CRLF)])
  else if parsed.primary = SDI12Cmd.kAddressQuery then
    (parsed, { dev with sensor := { dev.sensor with active := true } }, [])
  else
    (parsed, dev, [])

/-- The byte-reading loop inside a concurrent/high-volume wait (sketch
lines 419-427 and 454-462): append arriving characters to
`commandReceived` until a `!` (which is consumed, not appended). -/
def waitRead (commandReceived : String) (cs : List Char) : String :=
  commandReceived ++ String.mk (cs.takeWhile (fun c => !(c == '!')))

/-- The `kStateReady` case of the dispatcher switch (sketch lines
237-318). -/
def dispatchReady (env : Env) (parsed : SDI12CommandSet_s) (dev : DeviceState)
    (resp0 : String) : DeviceState × List Tx × String :=
  if parsed.primary = SDI12Cmd.kAddressQuery then
    (dev, [], resp0)
  else if parsed.primary = SDI12Cmd.kDataRequest then
    let r1 := if parsed.param1 < DATA_OUT_BUFFER_ARR_SIZE then
        resp0 ++ dev.dataOut parsed.param1 else resp0
    let r2 := if dev.sensor.crcRequested then r1 ++ env.crcAscii r1 else r1
    (dev, [], r2)
  else if parsed.primary = SDI12Cmd.kByteDataRequest then
    let txs := [Tx.resp "", Tx.rawChar dev.sensor.address, Tx.rawWord 0,
        Tx.rawByte kInvalidDataType] ++
      (if dev.sensor.crcRequested then [Tx.rawWord (env.crcBinary dev.sensor.address)] else [])
    ({ dev with sensor := { dev.sensor with active := false } }, txs, resp0)
  else if parsed.primary = SDI12Cmd.kIdentify then
    let r1 :=
      match env.mode with
      | .kModeAnalog =>
        if (parsed.secondary = SDI12Cmd.kMeasurement ∨
              parsed.secondary = SDI12Cmd.kConcurrentMeasurement) ∧
            parsed.param1 = 0 ∧ 0 < parsed.param2 ∧ parsed.param2 ≤ 2 then
          resp0 ++ "ADC,unitless,10bit ADC;"
        else resp0
      | _ => resp0
    let r2 := if 0 < parsed.param2 ∧ dev.sensor.crcRequested then
        r1 ++ env.crcAscii r1 else r1
    (dev, [], r2)
  else
    (dev, [], resp0)

/-- The `kStateMeasurement` case (sketch lines 320-380): inner mode switch
(analog channels 0/1 acknowledge `a0021` and sample; otherwise count 0),
the count-0 `a0000` fallback, the Identify early exits, then the
line-break/inactive cancellation check that either clears all ten data
lines or populates them via the chunker and rewrites the response to the
bare service-request line. -/
def dispatchMeasurement (env : Env) (parsed : SDI12CommandSet_s) (dev : DeviceState)
    (resp0 : String) : DeviceState × List Tx × String :=
  let step1 : Nat × String × List Tx × (Nat → Nat) :=
    if env.mode = DeviceMode_e.kModeAnalog ∧ parsed.param1 = 0 then
      let r := resp0 ++ "0021"
      if parsed.primary = SDI12Cmd.kIdentify then (1, r, [], dev.values)
      else (1, r ++ CRLF, [Tx.resp (r ++ CRLF)], Function.update dev.values 0 env.analog1)
    else if env.mode = DeviceMode_e.kModeAnalog ∧ parsed.param1 = 1 then
      let r := resp0 ++ "0021"
      if parsed.primary = SDI12Cmd.kIdentify then (1, r, [], dev.values)
      else (1, r ++ CRLF, [Tx.resp (r ++ CRLF)], Function.update dev.values 0 env.analog2)
    else (0, resp0, [], dev.values)
  let count := step1.1
  let r1 := step1.2.1
  let txs1 := step1.2.2.1
  let vals1 := step1.2.2.2
  if count = 0 then
    let r2 := r1 ++ "0000"
    if parsed.primary = SDI12Cmd.kIdentify then
      ({ dev with values := vals1 }, txs1, r2)
    else
      let r3 := r2 ++ CRLF
      let dev1 := { dev with
        values := vals1
        sensor := { dev.sensor with active := false }
        dataOut := clearTen dev.dataOut }
      (dev1, txs1 ++ [Tx.resp r3], r3)
  else if parsed.primary = SDI12Cmd.kIdentify then
    ({ dev with values := vals1 }, txs1, r1)
  else
    if env.lineBreak ∨ dev.sensor.active = false then
      let dev1 := { dev with
        values := vals1
        sensor := { dev.sensor with active := false }
        dataOut := clearTen dev.dataOut }
      (dev1, txs1, r1)
    else
      let dev1 := { dev with
        values := vals1
        dataOut := formatOutputSDICall env vals1 SDI12_VALUES_STR_SIZE_35 count dev.dataOut }
      (dev1, txs1, String.singleton dev.sensor.address)

/-- The `kStateConcurrent` case (sketch lines 382-439): analog group 0
acknowledges `a00202` and samples both channels, count-0 falls back to
`a00000`; during the wait further bus bytes are appended to
`commandReceived`; the acquisition is abandoned if the device went
inactive or the traffic parses to this device's address, else the chunker
populates the data lines; the device always ends inactive. -/
def dispatchConcurrent (env : Env) (parsed : SDI12CommandSet_s) (dev : DeviceState)
    (resp0 : String) : DeviceState × List Tx × String :=
  let step1 : Nat × String × List Tx × (Nat → Nat) :=
    if env.mode = DeviceMode_e.kModeAnalog ∧ parsed.param1 = 0 then
      let r := resp0 ++ "00202"
      if parsed.primary = SDI12Cmd.kIdentify then (2, r, [], dev.values)
      else (2, r ++ CRLF, [Tx.resp (r ++ CRLF)],
        Function.update (Function.update dev.values 0 env.analog1) 1 env.analog2)
    else (0, resp0, [], dev.values)
  let count := step1.1
  let r1 := step1.2.1
  let txs1 := step1.2.2.1
  let vals1 := step1.2.2.2
  if count = 0 then
    let r2 := r1 ++ "00000"
    if parsed.primary = SDI12Cmd.kIdentify then
      ({ dev with values := vals1 }, txs1, r2)
    else
      let r3 := r2 ++ CRLF
      let cr := waitRead dev.commandReceived env.waitTraffic
      let dev1 := { dev with
        values := vals1
        commandReceived := cr
        sensor := { dev.sensor with active := false }
        dataOut := clearTen dev.dataOut }
      (dev1, txs1 ++ [Tx.resp r3], r3)
  else if parsed.primary = SDI12Cmd.kIdentify then
    ({ dev with values := vals1 }, txs1, r1)
  else
    let cr := waitRead dev.commandReceived env.waitTraffic
    let cancelled := dev.sensor.active = false ∨
      (parseCommand cr).address = dev.sensor.address
    let dataOut1 :=
      if cancelled then clearTen dev.dataOut
      else formatOutputSDICall env vals1 SDI12_VALUES_STR_SIZE_75 count dev.dataOut
    let dev1 := { dev with
      values := vals1
      commandReceived := cr
      sensor := { dev.sensor with active := false }
      dataOut := dataOut1 }
    (dev1, txs1, r1)

/-- The `kStateHighMeasurement` case (sketch lines 441-480): the
unimplemented acknowledgment `a000000` is sent and the device is
immediately deactivated; then the wait/cancellation check runs — since the
active flag was just cleared its first disjunct always holds, so a
HighVolumeASCII command always clears the ten data lines and the populate
branch is dead. -/
def dispatchHighMeasurement (env : Env) (parsed : SDI12CommandSet_s)
    (dev : DeviceState) (resp0 : String) : DeviceState × List Tx × String :=
  let r1 := resp0 ++ "000000"
  if parsed.primary = SDI12Cmd.kIdentify then (dev, [], r1)
  else
    let r2 := r1 ++ CRLF
    let s1 := { dev.sensor with active := false }
    let cr := waitRead dev.commandReceived env.waitTraffic
    let cancelled := s1.active = false ∨ (parseCommand cr).address = s1.address
    let dataOut1 :=
      if cancelled then
        if parsed.primary = SDI12Cmd.kHighVolumeASCII then clearTen dev.dataOut
        else dev.dataOut
      else
        if parsed.primary = SDI12Cmd.kHighVolumeASCII then
          formatOutputSDICall env dev.values SDI12_VALUES_STR_SIZE_75 0 dev.dataOut
        else dev.dataOut
    let dev1 := { dev with
      commandReceived := cr
      sensor := s1
      dataOut := dataOut1 }
    (dev1, [Tx.resp r2], r2)

/-- The `kStateVerify` case (sketch lines 504-524): fixed `a0000`
placeholder, no cancellation path, always clears the data lines and ends
inactive. -/
def dispatchVerify (parsed : SDI12CommandSet_s) (dev : DeviceState)
    (resp0 : String) : DeviceState × List Tx × String :=
  let r1 := resp0 ++ "0000"
  if parsed.primary = SDI12Cmd.kIdentify then (dev, [], r1)
  else
    let r2 := r1 ++ CRLF
    let dev1 := { dev with
      sensor := { dev.sensor with active := false }
      dataOut := clearTen dev.dataOut }
    (dev1, [Tx.resp r2], r2)

/-- The dispatcher switch over the sensor state (sketch lines 233-525),
starting from `response = sensor.Address()`. -/
def dispatchSwitch (env : Env) (parsed : SDI12CommandSet_s) (dev : DeviceState) :
    DeviceState × List Tx × String :=
  let resp0 := String.singleton dev.sensor.address
  match dev.sensor.state with
  | .kStateLowPower => (dev, [], resp0)
  | .kStateReady => dispatchReady env parsed dev resp0
  | .kStateMeasurement => dispatchMeasurement env parsed dev resp0
  | .kStateConcurrent => dispatchConcurrent env parsed dev resp0
  | .kStateHighMeasurement => dispatchHighMeasurement env parsed dev resp0
  | .kStateContinuous =>
    let r := if dev.sensor.crcRequested then resp0 ++ env.crcAscii resp0 else resp0
    (dev, [], r)
  | .kStateVerify => dispatchVerify parsed dev resp0

/-- The dispatcher plus the cycle epilogue (sketch lines 231-534): run the
switch, then — if the device still owes a response or the command was the
wildcard query — append the terminator, transmit, and clear the active
flag; finally reset the state to Ready unconditionally. -/
def runDispatcher (env : Env) (parsed : SDI12CommandSet_s) (dev : DeviceState) :
    DeviceState × List Tx :=
  let out := dispatchSwitch env parsed dev
  let dev1 := out.1
  let txs := out.2.1
  let resp := out.2.2
  let fin :=
    if dev1.sensor.active = true ∨ parsed.primary = SDI12Cmd.kAddressQuery then
      ({ dev1 with sensor := { dev1.sensor with active := false } },
        txs ++ [Tx.resp (resp ++ CRLF)])
    else (dev1, txs)
  ({ fin.1 with sensor := { fin.1.sensor with state := .kStateReady } }, fin.2)

/-- One pass of `loop()` (sketch lines 188-536) in which the transport
reports `input`: the overflow branch clears only the transport buffer; the
byte branch accumulates characters into `commandReceived` until a `!`,
on which the completed command is parsed and serviced; the dispatcher runs
iff the device is active or the command was the wildcard query. -/
def loopCycle (env : Env) (dev : DeviceState) (input : BusInput) :
    DeviceState × List Tx :=
  match input with
  | .overflow =>
    if dev.sensor.active = true ∨ freshCommandSet.primary = SDI12Cmd.kAddressQuery then
      runDispatcher env freshCommandSet dev
    else (dev, [])
  | .bytes cs =>
    if '!' ∈ cs then
      let cmdStr := dev.commandReceived ++ String.mk (cs.takeWhile (fun c => !(c == '!')))
      let out := parseSdi12Cmd { dev with commandReceived := "" } cmdStr
      let parsed := out.1
      let dev1 := out.2.1
      let txs1 := out.2.2
      if dev1.sensor.active = true ∨ parsed.primary = SDI12Cmd.kAddressQuery then
        let fin := runDispatcher env parsed dev1
        (fin.1, txs1 ++ fin.2)
      else (dev1, txs1)
    else
      let dev1 := { dev with commandReceived := dev.commandReceived ++ String.mk cs }
      if dev1.sensor.active = true ∨ freshCommandSet.primary = SDI12Cmd.kAddressQuery then
        runDispatcher env freshCommandSet dev1
      else (dev1, [])

/-- Concatenation of the first `n` lines of a buffer, in index order. -/
def concatUpTo (buf : Nat → String) : Nat → String
  | 0 => ""
  | n + 1 => concatUpTo buf n ++ buf n

/-- A line buffer holding stale content at index 5, used to exhibit the
blank-fill loop's bound. -/
def staleBuf : Nat → String := fun i => if i = 5 then "STALE" else ""

/-- A concrete environment for evaluating the model: analog mode, a
deterministic sign-plus-digits encoder, no line break, no wait traffic. -/
def envW : Env :=
  { mode := .kModeAnalog
    encode := fun n => "+" ++ toString n ++ ".00000"
    crcAscii := fun _ => "CRC"
    crcBinary := fun _ => 0
    analog1 := 7
    analog2 := 9
    lineBreak := false
    waitTraffic := [] }

/-- The same environment with a line break observed during measurement. -/
def envWB : Env := { envW with lineBreak := true }

/-- A concrete idle device: address `0`, inactive, Ready, empty buffers. -/
def devW : DeviceState :=
  { sensor := { address := '0', active := false, state := .kStateReady, crcRequested := false }
    dataOut := emptyBuf
    values := fun _ => 0
    commandReceived := "" }

/-- The idle device part-way through receiving a command: `commandReceived`
already holds the accumulated fragment `"0M"`. -/
def devCR : DeviceState := { devW with commandReceived := "0M" }

/-! ## Helper lemmas -/

theorem foldl_append_factor (ss : List String) :
    ∀ a : String, ss.foldl (fun x y => x ++ y) a = a ++ ss.foldl (fun x y => x ++ y) "" := by
  induction ss with
  | nil => intro a; simp
  | cons s ss ih =>
    intro a
    simp only [List.foldl_cons]
    rw [ih (a ++ s), ih ("" ++ s), String.empty_append, String.append_assoc]

theorem join_cons (s : String) (ss : List String) :
    String.join (s :: ss) = s ++ String.join ss := by
  show (s :: ss).foldl (fun x y => x ++ y) "" = s ++ ss.foldl (fun x y => x ++ y) ""
  simp only [List.foldl_cons, String.empty_append]
  exact foldl_append_factor ss s

theorem join_filter_ne_empty (ss : List String) :
    String.join (ss.filter (fun l => l ≠ "")) = String.join ss := by
  induction ss with
  | nil => rfl
  | cons s ss ih =>
    by_cases h : s = ""
    · rw [List.filter_cons_of_neg (by simp [h]), ih, h, join_cons, String.empty_append]
    · rw [List.filter_cons_of_pos (by simp [h]), join_cons, join_cons, ih]

theorem concatUpTo_congr (f g : Nat → String) (n : Nat)
    (h : ∀ i < n, f i = g i) : concatUpTo f n = concatUpTo g n := by
  induction n with
  | zero => rfl
  | succ n ih =>
    simp only [concatUpTo]
    rw [ih (fun i hi => h i (Nat.lt_succ_of_lt hi)), h n (Nat.lt_succ_self n)]

theorem concatUpTo_ext_empty (f : Nat → String) (n : Nat) :
    ∀ m : Nat, n ≤ m → (∀ i, n ≤ i → f i = "") →
      concatUpTo f m = concatUpTo f n := by
  intro m
  induction m with
  | zero => intro h _; cases Nat.le_zero.mp h; rfl
  | succ m ih =>
    intro hnm hf
    rcases Nat.lt_or_ge n (m + 1) with hlt | hge
    · have hnm' : n ≤ m := Nat.lt_succ_iff.mp hlt
      simp only [concatUpTo]
      rw [hf m hnm', String.append_empty, ih hnm' hf]
    · have hn : n = m + 1 := Nat.le_antisymm hnm hge
      rw [hn]

theorem concatUpTo_eq_join_range (f : Nat → String) (n : Nat) :
    String.join ((List.range n).map f) = concatUpTo f n := by
  induction n with
  | zero => rfl
  | succ n ih =>
    rw [List.range_succ, List.map_append, List.map_cons, List.map_nil]
    show String.join ((List.range n).map f ++ [f n]) = concatUpTo f n ++ f n
    rw [← ih]
    generalize (List.range n).map f = ls
    induction ls with
    | nil => simp [join_cons, String.join]
    | cons x xs ihx =>
      simp only [List.cons_append, join_cons, ihx, String.append_assoc]

theorem fillFrom_apply (k : Nat) :
    ∀ (buf : Nat → String) (idx i : Nat),
      fillFrom buf idx k i = if idx < i ∧ i ≤ idx + k then "" else buf i := by
  induction k with
  | zero =>
    intro buf idx i
    have hc : ¬ (idx < i ∧ i ≤ idx + 0) := by omega
    simp only [fillFrom]
    rw [if_neg hc]
  | succ k ih =>
    intro buf idx i
    simp only [fillFrom]
    rw [ih, Function.update_apply]
    by_cases h1 : idx + 1 < i ∧ i ≤ idx + 1 + k
    · rw [if_pos h1, if_pos (by omega)]
    · rw [if_neg h1]
      by_cases h2 : i = idx + 1
      · rw [if_pos h2, if_pos (by omega)]
      · rw [if_neg h2]
        by_cases h3 : idx < i ∧ i ≤ idx + (k + 1)
        · exact absurd (⟨by omega, by omega⟩ : idx + 1 < i ∧ i ≤ idx + 1 + k) h1
        · rw [if_neg h3]

theorem chunk_invariant (max : Nat) :
    ∀ (ts : List String) (buf : Nat → String) (idx : Nat),
      (∀ t ∈ ts, t.length < max) →
      (∀ i, i ≤ idx → (buf i).length < max) →
      (∀ i, idx < i → buf i = "") →
      idx ≤ (ts.foldl (chunkStep max) (buf, idx)).2 ∧
      (ts.foldl (chunkStep max) (buf, idx)).2 ≤ idx + ts.length ∧
      (∀ i, i ≤ (ts.foldl (chunkStep max) (buf, idx)).2 →
        ((ts.foldl (chunkStep max) (buf, idx)).1 i).length < max) ∧
      (∀ i, (ts.foldl (chunkStep max) (buf, idx)).2 < i →
        (ts.foldl (chunkStep max) (buf, idx)).1 i = "") ∧
      concatUpTo (ts.foldl (chunkStep max) (buf, idx)).1
          ((ts.foldl (chunkStep max) (buf, idx)).2 + 1) =
        concatUpTo buf (idx + 1) ++ String.join ts := by
  intro ts
  induction ts with
  | nil =>
    intro buf idx hts hlen hbeyond
    refine ⟨Nat.le_refl _, by simp, hlen, hbeyond, ?_⟩
    show concatUpTo buf (idx + 1) = concatUpTo buf (idx + 1) ++ String.join []
    rw [show String.join [] = "" from rfl, String.append_empty]
  | cons t ts ih =>
    intro buf idx hts hlen hbeyond
    have ht : t.length < max := hts t (List.mem_cons_self _ _)
    have hts2 : ∀ x ∈ ts, x.length < max := fun x hx => hts x (List.mem_cons_of_mem _ hx)
    simp only [List.foldl_cons]
    by_cases hc : (buf idx).length + t.length < max
    · have hstep : chunkStep max (buf, idx) t =
          (Function.update buf idx (buf idx ++ t), idx) := by
        simp [chunkStep, hc]
      rw [hstep]
      have hlen2 : ∀ i, i ≤ idx →
          ((Function.update buf idx (buf idx ++ t)) i).length < max := by
        intro i hi
        by_cases he : i = idx
        · subst he
          rw [Function.update_same, String.length_append]
          exact hc
        · rw [Function.update_noteq he]
          exact hlen i hi
      have hbeyond2 : ∀ i, idx < i → (Function.update buf idx (buf idx ++ t)) i = "" := by
        intro i hi
        rw [Function.update_noteq (by omega)]
        exact hbeyond i hi
      obtain ⟨h1, h2, h3, h4, h5⟩ := ih (Function.update buf idx (buf idx ++ t)) idx
        hts2 hlen2 hbeyond2
      refine ⟨h1, by simp only [List.length_cons]; omega, h3, h4, ?_⟩
      rw [h5]
      have hcc : concatUpTo (Function.update buf idx (buf idx ++ t)) (idx + 1) =
          concatUpTo buf (idx + 1) ++ t := by
        show concatUpTo (Function.update buf idx (buf idx ++ t)) idx ++
            (Function.update buf idx (buf idx ++ t)) idx = _
        rw [concatUpTo_congr (Function.update buf idx (buf idx ++ t)) buf idx
            (fun i hi => Function.update_noteq (by omega) _ _)]
        rw [Function.update_same]
        show concatUpTo buf idx ++ (buf idx ++ t) = (concatUpTo buf idx ++ buf idx) ++ t
        rw [String.append_assoc]
      rw [hcc, String.append_assoc, join_cons]
    · have hstep : chunkStep max (buf, idx) t = (Function.update buf (idx + 1) t, idx + 1) := by
        simp [chunkStep, hc]
      rw [hstep]
      have hlen2 : ∀ i, i ≤ idx + 1 → ((Function.update buf (idx + 1) t) i).length < max := by
        intro i hi
        by_cases he : i = idx + 1
        · subst he
          rw [Function.update_same]
          exact ht
        · rw [Function.update_noteq he]
          exact hlen i (by omega)
      have hbeyond2 : ∀ i, idx + 1 < i → (Function.update buf (idx + 1) t) i = "" := by
        intro i hi
        rw [Function.update_noteq (by omega)]
        exact hbeyond i (by omega)
      obtain ⟨h1, h2, h3, h4, h5⟩ := ih (Function.update buf (idx + 1) t) (idx + 1)
        hts2 hlen2 hbeyond2
      refine ⟨by omega, by simp only [List.length_cons] at h2 ⊢; omega, h3, h4, ?_⟩
      rw [h5]
      have hcc : concatUpTo (Function.update buf (idx + 1) t) (idx + 1 + 1) =
          concatUpTo buf (idx + 1) ++ t := by
        show concatUpTo (Function.update buf (idx + 1) t) (idx + 1) ++
            (Function.update buf (idx + 1) t) (idx + 1) = _
        rw [concatUpTo_congr (Function.update buf (idx + 1) t) buf (idx + 1)
            (fun i hi => Function.update_noteq (by omega) _ _)]
        rw [Function.update_same]
      rw [hcc, String.append_assoc, join_cons]

theorem update_emptyBuf_eq : Function.update emptyBuf 0 "" = emptyBuf := by
  funext i
  by_cases hi : i = 0
  · subst hi; rw [Function.update_same]; rfl
  · rw [Function.update_noteq hi]

/-- Every line of the finished buffer, via the chunk invariant and the
blank-fill characterization. -/
theorem formatOutputSDI_apply (tokens : List String) (max : Nat) (i : Nat) :
    formatOutputSDI tokens max emptyBuf i =
      (if (chunkTokens max tokens emptyBuf).2 < i ∧
          i ≤ (chunkTokens max tokens emptyBuf).2 +
            (data_values_size - (chunkTokens max tokens emptyBuf).2) then ""
        else (chunkTokens max tokens emptyBuf).1 i) := by
  show fillFrom (chunkTokens max tokens (Function.update emptyBuf 0 "")).1
      (chunkTokens max tokens (Function.update emptyBuf 0 "")).2
      (data_values_size - (chunkTokens max tokens (Function.update emptyBuf 0 "")).2) i = _
  rw [update_emptyBuf_eq, fillFrom_apply]

/-- Claim C5, amended: provided every encoded token is strictly shorter
than the caller-supplied maximum line length (true of the bounded-width
encoder tokens under the limits 35 and 75 that the callers pass), the
chunker starting from the empty line buffer produces no line whose length
exceeds the maximum, every line past index `tokens.length` is empty, and
concatenating all non-empty lines in index order reproduces the
concatenation of the encoded tokens exactly. -/
theorem chunker_bounded_and_lossless (tokens : List String) (max : Nat)
    (h : ∀ t ∈ tokens, t.length < max) :
    (∀ i, ((formatOutputSDI tokens max emptyBuf) i).length ≤ max) ∧
    String.join (((List.range (tokens.length + 1)).map
        (formatOutputSDI tokens max emptyBuf)).filter (fun l => l ≠ "")) =
      String.join tokens ∧
    (∀ i, tokens.length < i → formatOutputSDI tokens max emptyBuf i = "") := by
  cases tokens with
  | nil =>
    have hall : ∀ i, formatOutputSDI [] max emptyBuf i = "" := by
      intro i
      rw [formatOutputSDI_apply]
      by_cases hin : (chunkTokens max [] emptyBuf).2 < i ∧
        i ≤ (chunkTokens max [] emptyBuf).2 +
          (data_values_size - (chunkTokens max [] emptyBuf).2)
      · rw [if_pos hin]
      · rw [if_neg hin]
        rfl
    refine ⟨?_, ?_, ?_⟩
    · intro i
      rw [hall i]
      exact Nat.zero_le _
    · rw [join_filter_ne_empty, concatUpTo_eq_join_range,
        concatUpTo_ext_empty _ 0 _ (Nat.zero_le _) (fun i _ => hall i)]
      rfl
    · intro i _
      exact hall i
  | cons t ts =>
    have hmax : 0 < max := by
      have := h t (List.mem_cons_self _ _)
      omega
    have hlen0 : ∀ i, i ≤ 0 → ((emptyBuf i).length < max) := by
      intro i _
      simpa [emptyBuf] using hmax
    have hbey0 : ∀ i, 0 < i → emptyBuf i = "" := fun i _ => rfl
    have hchunk : chunkTokens max (t :: ts) emptyBuf =
        (t :: ts).foldl (chunkStep max) (emptyBuf, 0) := rfl
    obtain ⟨h1, h2, h3, h4, h5⟩ := chunk_invariant max (t :: ts) emptyBuf 0 h hlen0 hbey0
    rw [← hchunk] at h1 h2 h3 h4 h5
    have hfin : ∀ i, (chunkTokens max (t :: ts) emptyBuf).2 < i →
        formatOutputSDI (t :: ts) max emptyBuf i = "" := by
      intro i hi
      rw [formatOutputSDI_apply]
      by_cases hin : (chunkTokens max (t :: ts) emptyBuf).2 < i ∧
        i ≤ (chunkTokens max (t :: ts) emptyBuf).2 +
          (data_values_size - (chunkTokens max (t :: ts) emptyBuf).2)
      · rw [if_pos hin]
      · rw [if_neg hin]
        exact h4 i hi
    have hlow : ∀ i, i ≤ (chunkTokens max (t :: ts) emptyBuf).2 →
        formatOutputSDI (t :: ts) max emptyBuf i =
          (chunkTokens max (t :: ts) emptyBuf).1 i := by
      intro i hi
      rw [formatOutputSDI_apply]
      have hin : ¬ ((chunkTokens max (t :: ts) emptyBuf).2 < i ∧
          i ≤ (chunkTokens max (t :: ts) emptyBuf).2 +
            (data_values_size - (chunkTokens max (t :: ts) emptyBuf).2)) := by
        omega
      rw [if_neg hin]
    refine ⟨?_, ?_, ?_⟩
    · intro i
      rcases Nat.lt_or_ge (chunkTokens max (t :: ts) emptyBuf).2 i with hi | hi
      · rw [hfin i hi]
        exact Nat.zero_le _
      · rw [hlow i hi]
        exact Nat.le_of_lt (h3 i hi)
    · rw [join_filter_ne_empty, concatUpTo_eq_join_range]
      have hstep1 : concatUpTo (formatOutputSDI (t :: ts) max emptyBuf) ((t :: ts).length + 1) =
          concatUpTo (formatOutputSDI (t :: ts) max emptyBuf)
            ((chunkTokens max (t :: ts) emptyBuf).2 + 1) := by
        apply concatUpTo_ext_empty
        · simp only [List.length_cons] at h2 ⊢
          omega
        · intro i hi
          exact hfin i (by omega)
      rw [hstep1]
      rw [concatUpTo_congr _ (chunkTokens max (t :: ts) emptyBuf).1 _
        (fun i hi => hlow i (by omega))]
      rw [h5]
      show concatUpTo emptyBuf 0 ++ emptyBuf 0 ++ String.join (t :: ts) = _
      rw [show concatUpTo emptyBuf 0 ++ emptyBuf 0 = "" from rfl, String.empty_append]
    · intro i hi
      apply hfin
      simp only [List.length_cons] at h2 hi
      omega

/-- Claim C5, counterexample to the original universally-quantified form:
with the single 8-character encoder token `+8.00000` and a caller-supplied
maximum line length of 5, the chunker places the token on line 1, whose
length 8 exceeds the maximum 5. -/
theorem chunker_line_exceeds_max :
    formatOutputSDI ["+8.00000"] 5 emptyBuf 1 = "+8.00000" ∧
    5 < (formatOutputSDI ["+8.00000"] 5 emptyBuf 1).length := by
  refine ⟨by decide, by decide⟩

/-- Witness for the amended C5 theorem at the concrete token list
`[+1.50000, +22.3000]` with the M-class maximum 35. -/
theorem chunker_bounded_and_lossless_witness :
    (∀ t ∈ (["+1.50000", "+22.3000"] : List String), t.length < 35) ∧
    ((∀ i, ((formatOutputSDI ["+1.50000", "+22.3000"] 35 emptyBuf) i).length ≤ 35) ∧
      String.join (((List.range 3).map
          (formatOutputSDI ["+1.50000", "+22.3000"] 35 emptyBuf)).filter (fun l => l ≠ "")) =
        String.join ["+1.50000", "+22.3000"] ∧
      (∀ i, 2 < i → formatOutputSDI ["+1.50000", "+22.3000"] 35 emptyBuf i = "")) :=
  ⟨by decide, chunker_bounded_and_lossless ["+1.50000", "+22.3000"] 35 (by decide)⟩

/-- Claim C6: the code at the failing input.  Eleven values whose tokens
are 8 characters long, chunked with `max_char_size = 8`, drive the line
index to 11: the writes at indices 10 and 11 land outside the 10-element
`data_out_buffer_arr` (nothing is dropped), and with a single short token
the blank-fill loop, bounded by `data_values_size = sizeof(String) /
sizeof(char*) = 3` instead of the array length, leaves a stale line at
index 5 untouched. -/
theorem chunker_capacity_bug :
    chunkFinalIdx (List.replicate 11 "+1.00000") 8 emptyBuf = 11 ∧
    DATA_OUT_BUFFER_ARR_SIZE ≤ 10 ∧
    formatOutputSDI (List.replicate 11 "+1.00000") 8 emptyBuf 10 = "+1.00000" ∧
    formatOutputSDI (List.replicate 11 "+1.00000") 8 emptyBuf 11 = "+1.00000" ∧
    formatOutputSDI ["+1.50000"] 35 staleBuf 5 = "STALE" := by
  refine ⟨by decide, by decide, by decide, by decide, by decide⟩

theorem runDispatcher_state (env : Env) (p : SDI12CommandSet_s) (d : DeviceState) :
    ((runDispatcher env p d).1).sensor.state = SDI12SensorState_e.kStateReady := rfl

theorem runDispatcher_active (env : Env) (p : SDI12CommandSet_s) (d : DeviceState) :
    ((runDispatcher env p d).1).sensor.active = false := by
  unfold runDispatcher
  by_cases hc : (dispatchSwitch env p d).1.sensor.active = true ∨
      p.primary = SDI12Cmd.kAddressQuery
  · simp only [hc, if_true]
  · simp only [hc, if_false]
    rcases hb : (dispatchSwitch env p d).1.sensor.active with _ | _
    · rfl
    · exact absurd (Or.inl hb) hc

/-- Claim C7, amended: when the transport reports negative availability
(receive-buffer overflow), the transport receive buffer is cleared and no
response is transmitted for that cycle, but the partially accumulated
command in `commandReceived` is retained, not discarded, and the device
state is unchanged. -/
theorem overflow_preserves (env : Env) (dev : DeviceState)
    (hact : dev.sensor.active = false) :
    loopCycle env dev BusInput.overflow = (dev, []) := by
  have hc : ¬ (dev.sensor.active = true ∨
      freshCommandSet.primary = SDI12Cmd.kAddressQuery) := by
    simp [hact, freshCommandSet]
  simp only [loopCycle]
  rw [if_neg hc]

theorem configureState_address (s : Sensor) (c : SDI12CommandSet_s) :
    (configureState s c).address = s.address := rfl

theorem configureState_active (s : Sensor) (c : SDI12CommandSet_s) :
    (configureState s c).active = s.active := rfl

theorem configureState_crc (s : Sensor) (c : SDI12CommandSet_s) :
    (configureState s c).crcRequested = c.crcRequested := rfl

theorem parseSdi12Cmd_wildcard (dev : DeviceState) (cmd : String)
    (haddr : (parseCommand cmd).address ≠ dev.sensor.address)
    (hq : (parseCommand cmd).primary = SDI12Cmd.kAddressQuery) :
    parseSdi12Cmd dev cmd =
      (parseCommand cmd, { dev with sensor := { dev.sensor with active := true } }, []) := by
  simp only [parseSdi12Cmd]
  rw [if_neg haddr, if_pos hq]

theorem parseSdi12Cmd_no_match (dev : DeviceState) (cmd : String)
    (haddr : (parseCommand cmd).address ≠ dev.sensor.address)
    (hq : (parseCommand cmd).primary ≠ SDI12Cmd.kAddressQuery) :
    parseSdi12Cmd dev cmd = (parseCommand cmd, dev, []) := by
  simp only [parseSdi12Cmd]
  rw [if_neg haddr, if_neg hq]

theorem parseSdi12Cmd_active (dev : DeviceState) (cmd : String)
    (hm : (parseCommand cmd).address = dev.sensor.address)
    (h1 : ¬ ((parseCommand cmd).primary = SDI12Cmd.kIdentify ∧
        (parseCommand cmd).secondary = SDI12Cmd.kUnknown))
    (h2 : (parseCommand cmd).primary ≠ SDI12Cmd.kAcknowledge)
    (h3 : (parseCommand cmd).primary ≠ SDI12Cmd.kAddressChange)
    (h4 : (parseCommand cmd).primary ≠ SDI12Cmd.kUnknown) :
    parseSdi12Cmd dev cmd = (parseCommand cmd,
      { dev with sensor := configureState { dev.sensor with active := true } (parseCommand cmd) },
      []) := by
  simp only [parseSdi12Cmd]
  rw [if_pos hm, if_neg h1, if_neg h2, if_neg h3, if_neg h4]
  rfl

theorem parseSdi12Cmd_identify_bare (dev : DeviceState) (cmd : String)
    (hm : (parseCommand cmd).address = dev.sensor.address)
    (h1 : (parseCommand cmd).primary = SDI12Cmd.kIdentify ∧
        (parseCommand cmd).secondary = SDI12Cmd.kUnknown) :
    parseSdi12Cmd dev cmd = (parseCommand cmd,
      { dev with sensor :=
          { configureState { dev.sensor with active := true } (parseCommand cmd) with
            active := false } },
      [Tx.resp (String.singleton dev.sensor.address ++ idString ++ CRLF)]) := by
  obtain ⟨hp, hs⟩ := h1
  simp [parseSdi12Cmd, hm, hp, hs, configureState_address]

theorem parseSdi12Cmd_acknowledge (dev : DeviceState) (cmd : String)
    (hm : (parseCommand cmd).address = dev.sensor.address)
    (hp : (parseCommand cmd).primary = SDI12Cmd.kAcknowledge) :
    parseSdi12Cmd dev cmd = (parseCommand cmd,
      { dev with sensor :=
          { configureState { dev.sensor with active := true } (parseCommand cmd) with
            active := false } },
      [Tx.resp (String.singleton dev.sensor.address ++ CRLF)]) := by
  simp [parseSdi12Cmd, hm, hp, configureState_address]

theorem parseSdi12Cmd_addressChange (dev : DeviceState) (cmd : String)
    (hm : (parseCommand cmd).address = dev.sensor.address)
    (hp : (parseCommand cmd).primary = SDI12Cmd.kAddressChange) :
    parseSdi12Cmd dev cmd = (parseCommand cmd,
      { dev with sensor :=
          { configureState { dev.sensor with active := true } (parseCommand cmd) with
            address := Char.ofNat (parseCommand cmd).param1, active := false } },
      [Tx.resp (String.singleton (Char.ofNat (parseCommand cmd).param1) ++ CRLF)]) := by
  simp [parseSdi12Cmd, hm, hp, configureState_address]

theorem parseSdi12Cmd_unknown (dev : DeviceState) (cmd : String)
    (hm : (parseCommand cmd).address = dev.sensor.address)
    (hp : (parseCommand cmd).primary = SDI12Cmd.kUnknown) :
    parseSdi12Cmd dev cmd = (parseCommand cmd,
      { dev with sensor :=
          { configureState { dev.sensor with active := true } (parseCommand cmd) with
            active := false } },
      [Tx.resp (String.singleton dev.sensor.address ++ "UNK\r\n" ++ CRLF)]) := by
  simp [parseSdi12Cmd, hm, hp, configureState_address]

theorem loopCycle_bytes (env : Env) (dev : DeviceState) (cs : List Char)
    (hbang : '!' ∈ cs) :
    loopCycle env dev (BusInput.bytes cs) =
      (if (parseSdi12Cmd { dev with commandReceived := "" }
            (dev.commandReceived ++ String.mk (cs.takeWhile (fun c => !(c == '!'))))).2.1.sensor.active
              = true ∨
          (parseSdi12Cmd { dev with commandReceived := "" }
            (dev.commandReceived ++ String.mk (cs.takeWhile (fun c => !(c == '!'))))).1.primary
              = SDI12Cmd.kAddressQuery then
        ((runDispatcher env
            (parseSdi12Cmd { dev with commandReceived := "" }
              (dev.commandReceived ++ String.mk (cs.takeWhile (fun c => !(c == '!'))))).1
            (parseSdi12Cmd { dev with commandReceived := "" }
              (dev.commandReceived ++ String.mk (cs.takeWhile (fun c => !(c == '!'))))).2.1).1,
          (parseSdi12Cmd { dev with commandReceived := "" }
            (dev.commandReceived ++ String.mk (cs.takeWhile (fun c => !(c == '!'))))).2.2 ++
          (runDispatcher env
            (parseSdi12Cmd { dev with commandReceived := "" }
              (dev.commandReceived ++ String.mk (cs.takeWhile (fun c => !(c == '!'))))).1
            (parseSdi12Cmd { dev with commandReceived := "" }
              (dev.commandReceived ++ String.mk (cs.takeWhile (fun c => !(c == '!'))))).2.1).2)
      else
        ((parseSdi12Cmd { dev with commandReceived := "" }
            (dev.commandReceived ++ String.mk (cs.takeWhile (fun c => !(c == '!'))))).2.1,
         (parseSdi12Cmd { dev with commandReceived := "" }
            (dev.commandReceived ++ String.mk (cs.takeWhile (fun c => !(c == '!'))))).2.2)) := by
  simp only [loopCycle]
  rw [if_pos hbang]

theorem parseCommand_cons (a : Char) (rest : List Char) :
    parseCommand (String.mk (a :: rest)) =
      if a = '?' ∧ rest = [] then
        { freshCommandSet with address := '?', primary := .kAddressQuery }
      else
        { address := a, primary := (parseVerb rest).1, secondary := (parseVerb rest).2.1,
          param1 := (parseVerb rest).2.2.1, param2 := (parseVerb rest).2.2.2.1,
          crcRequested := (parseVerb rest).2.2.2.2 } := rfl

theorem parseCommand_single (a : Char) (ha : a ≠ '?') :
    parseCommand (String.mk [a]) =
      { address := a, primary := .kAcknowledge, secondary := .kUnknown,
        param1 := 0, param2 := 0, crcRequested := false } := by
  rw [parseCommand_cons, if_neg (by simp [ha])]
  rfl

theorem parseCommand_aM (a : Char) :
    parseCommand (String.mk [a, 'M']) =
      { address := a, primary := .kMeasurement, secondary := .kUnknown,
        param1 := 0, param2 := 0, crcRequested := false } := by
  rw [parseCommand_cons, if_neg (by simp)]
  rfl

theorem parseCommand_aD0 (a : Char) :
    parseCommand (String.mk [a, 'D', '0']) =
      { address := a, primary := .kDataRequest, secondary := .kUnknown,
        param1 := 0, param2 := 0, crcRequested := false } := by
  rw [parseCommand_cons, if_neg (by simp)]
  rfl

/-- Claim C9: a wildcard address query `?!` received in the resting state
transmits exactly the device address plus terminator and leaves the
device state entirely unchanged, so repeated queries are idempotent and
every occurrence produces the identical response. -/
theorem addressQuery_idempotent (env : Env) (dev : DeviceState)
    (hact : dev.sensor.active = false)
    (hst : dev.sensor.state = SDI12SensorState_e.kStateReady)
    (hcr : dev.commandReceived = "")
    (haddr : dev.sensor.address ≠ '?') :
    loopCycle env dev (BusInput.bytes ['?', '!']) =
      (dev, [Tx.resp (String.singleton dev.sensor.address ++ CRLF)]) := by
  obtain ⟨⟨a, act, st, crc⟩, dataOut, values, cr⟩ := dev
  dsimp only at hact hst hcr haddr
  subst hact hst hcr
  rw [loopCycle_bytes _ _ _ (by decide)]
  have hstr : ("" : String) ++ String.mk (['?', '!'].takeWhile (fun c => !(c == '!'))) = "?" := rfl
  have ha0 : (parseCommand "?").address = '?' := rfl
  have hq0 : (parseCommand "?").primary = SDI12Cmd.kAddressQuery := rfl
  rw [hstr]
  rw [parseSdi12Cmd_wildcard _ _ (by rw [ha0]; exact Ne.symm haddr) hq0]
  rfl

/-- Claim C2: for every incoming command whose address field does not
equal the stored address and whose verb is not the wildcard address query,
the device transmits no bytes and its sensor object — state, active flag
and stored address — is left unchanged (stated for a device in its
between-cycles resting state, active flag clear). -/
theorem unmatched_command_ignored (env : Env) (dev : DeviceState) (cs : List Char)
    (hact : dev.sensor.active = false)
    (hbang : '!' ∈ cs)
    (haddr : (parseCommand (dev.commandReceived ++
        String.mk (cs.takeWhile (fun c => !(c == '!'))))).address ≠ dev.sensor.address)
    (hq : (parseCommand (dev.commandReceived ++
        String.mk (cs.takeWhile (fun c => !(c == '!'))))).primary ≠ SDI12Cmd.kAddressQuery) :
    (loopCycle env dev (BusInput.bytes cs)).2 = [] ∧
    (loopCycle env dev (BusInput.bytes cs)).1.sensor = dev.sensor := by
  rw [loopCycle_bytes env dev cs hbang]
  rw [parseSdi12Cmd_no_match { dev with commandReceived := "" } _ haddr hq]
  rw [if_neg (by simp [hact, hq])]
  exact ⟨rfl, rfl⟩


theorem configureState_ready (s : Sensor) (c : SDI12CommandSet_s)
    (h : c.primary = SDI12Cmd.kIdentify ∨ c.primary = SDI12Cmd.kAcknowledge ∨
      c.primary = SDI12Cmd.kAddressChange ∨ c.primary = SDI12Cmd.kDataRequest ∨
      c.primary = SDI12Cmd.kByteDataRequest ∨ c.primary = SDI12Cmd.kAddressQuery ∨
      c.primary = SDI12Cmd.kUnknown) :
    (configureState s c).state = SDI12SensorState_e.kStateReady := by
  rcases h with h | h | h | h | h | h | h <;> simp [configureState, h]

/-- Claim C8: servicing `0A5!` on a device whose address is `0` mutates
the stored address to `5`, clears the active flag, and transmits only the
new-address echo `5\r\n`; afterwards commands addressed to `0` no longer
match and only `?` and `5` do — the address filter accepts exactly address
`5` or the wildcard query, `0!` draws no response, and `5!` and `?!` are
answered. -/
theorem addressChange_rebinds (env : Env) (dev : DeviceState)
    (haddr : dev.sensor.address = '0')
    (hcr : dev.commandReceived = "") :
    (loopCycle env dev (BusInput.bytes ['0', 'A', '5', '!'])).2 = [Tx.resp ("5" ++ CRLF)] ∧
    (loopCycle env dev (BusInput.bytes ['0', 'A', '5', '!'])).1.sensor.address = '5' ∧
    (loopCycle env dev (BusInput.bytes ['0', 'A', '5', '!'])).1.sensor.active = false ∧
    (∀ c : SDI12CommandSet_s,
      cmdMatches (loopCycle env dev (BusInput.bytes ['0', 'A', '5', '!'])).1.sensor c ↔
        (c.address = '5' ∨ c.primary = SDI12Cmd.kAddressQuery)) ∧
    (loopCycle env (loopCycle env dev (BusInput.bytes ['0', 'A', '5', '!'])).1
        (BusInput.bytes ['0', '!'])).2 = [] ∧
    (loopCycle env (loopCycle env dev (BusInput.bytes ['0', 'A', '5', '!'])).1
        (BusInput.bytes ['5', '!'])).2 = [Tx.resp ("5" ++ CRLF)] ∧
    (loopCycle env (loopCycle env dev (BusInput.bytes ['0', 'A', '5', '!'])).1
        (BusInput.bytes ['?', '!'])).2 = [Tx.resp ("5" ++ CRLF)] := by
  obtain ⟨⟨a, act, st, crc⟩, dataOut, values, cr⟩ := dev
  dsimp only at haddr hcr
  subst haddr hcr
  exact ⟨rfl, rfl, rfl, fun c => Iff.rfl, rfl, rfl, rfl⟩

theorem configureState_high (s : Sensor) (c : SDI12CommandSet_s)
    (h : c.primary = SDI12Cmd.kHighVolumeASCII ∨ c.primary = SDI12Cmd.kHighVolumeByte) :
    (configureState s c).state = SDI12SensorState_e.kStateHighMeasurement := by
  rcases h with h | h <;> simp [configureState, h]

theorem runDispatcher_high_clears (env : Env) (p : SDI12CommandSet_s) (d : DeviceState)
    (hst : d.sensor.state = SDI12SensorState_e.kStateHighMeasurement)
    (hp : p.primary = SDI12Cmd.kHighVolumeASCII) :
    ∀ i, i < DATA_OUT_BUFFER_ARR_SIZE → (runDispatcher env p d).1.dataOut i = "" := by
  intro i hi
  simp only [runDispatcher, dispatchSwitch]
  rw [hst]
  simp only [dispatchHighMeasurement, hp]
  simp [clearTen, hi]

/-- Claim C10: for every HighVolumeASCII command serviced in any device
mode, after the cycle completes all ten data-line buffers are empty
strings: the dispatcher deactivates the device before its own
cancellation check, so the branch that would populate the buffers with
high-volume data is never taken. -/
theorem highVolume_clears_lines (env : Env) (dev : DeviceState) (cs : List Char)
    (hbang : '!' ∈ cs)
    (hp : (parseCommand (dev.commandReceived ++
        String.mk (cs.takeWhile (fun c => !(c == '!'))))).primary = SDI12Cmd.kHighVolumeASCII)
    (hm : (parseCommand (dev.commandReceived ++
        String.mk (cs.takeWhile (fun c => !(c == '!'))))).address = dev.sensor.address) :
    ∀ i, i < DATA_OUT_BUFFER_ARR_SIZE →
      (loopCycle env dev (BusInput.bytes cs)).1.dataOut i = "" := by
  intro i hi
  rw [loopCycle_bytes env dev cs hbang]
  rw [parseSdi12Cmd_active { dev with commandReceived := "" } _ hm (by simp [hp])
    (by simp [hp]) (by simp [hp]) (by simp [hp])]
  split
  · exact runDispatcher_high_clears env _ _ (configureState_high _ _ (Or.inl hp)) hp i hi
  · next hfalse => exact absurd (Or.inl rfl) hfalse

/-- Claim C4: after every full response cycle serviced by the dispatcher —
whichever state processed the command — the sensor state is reset to Ready
and the active flag is cleared, so the device is ready for the next
inbound command.  Serviced means the parsed command is addressed to this
device or is the wildcard query. -/
theorem cycle_resets_to_ready (env : Env) (dev : DeviceState) (cs : List Char)
    (hbang : '!' ∈ cs)
    (hserv : (parseCommand (dev.commandReceived ++
        String.mk (cs.takeWhile (fun c => !(c == '!'))))).address = dev.sensor.address ∨
      (parseCommand (dev.commandReceived ++
        String.mk (cs.takeWhile (fun c => !(c == '!'))))).primary = SDI12Cmd.kAddressQuery) :
    (loopCycle env dev (BusInput.bytes cs)).1.sensor.state = SDI12SensorState_e.kStateReady ∧
    (loopCycle env dev (BusInput.bytes cs)).1.sensor.active = false := by
  rw [loopCycle_bytes env dev cs hbang]
  by_cases hm : (parseCommand (dev.commandReceived ++
      String.mk (cs.takeWhile (fun c => !(c == '!'))))).address = dev.sensor.address
  · by_cases b1 : (parseCommand (dev.commandReceived ++
        String.mk (cs.takeWhile (fun c => !(c == '!'))))).primary = SDI12Cmd.kIdentify ∧
        (parseCommand (dev.commandReceived ++
          String.mk (cs.takeWhile (fun c => !(c == '!'))))).secondary = SDI12Cmd.kUnknown
    · rw [parseSdi12Cmd_identify_bare { dev with commandReceived := "" } _ hm b1]
      rw [if_neg (by simp [b1.1])]
      dsimp only
      exact ⟨configureState_ready _ _ (Or.inl b1.1), rfl⟩
    · by_cases b2 : (parseCommand (dev.commandReceived ++
          String.mk (cs.takeWhile (fun c => !(c == '!'))))).primary = SDI12Cmd.kAcknowledge
      · rw [parseSdi12Cmd_acknowledge { dev with commandReceived := "" } _ hm b2]
        rw [if_neg (by simp [b2])]
        dsimp only
        exact ⟨configureState_ready _ _ (Or.inr (Or.inl b2)), rfl⟩
      · by_cases b3 : (parseCommand (dev.commandReceived ++
            String.mk (cs.takeWhile (fun c => !(c == '!'))))).primary = SDI12Cmd.kAddressChange
        · rw [parseSdi12Cmd_addressChange { dev with commandReceived := "" } _ hm b3]
          rw [if_neg (by simp [b3])]
          dsimp only
          exact ⟨configureState_ready _ _ (Or.inr (Or.inr (Or.inl b3))), rfl⟩
        · by_cases b4 : (parseCommand (dev.commandReceived ++
              String.mk (cs.takeWhile (fun c => !(c == '!'))))).primary = SDI12Cmd.kUnknown
          · rw [parseSdi12Cmd_unknown { dev with commandReceived := "" } _ hm b4]
            rw [if_neg (by simp [b4])]
            dsimp only
            refine ⟨configureState_ready _ _ ?_, rfl⟩
            exact Or.inr (Or.inr (Or.inr (Or.inr (Or.inr (Or.inr b4)))))
          · rw [parseSdi12Cmd_active { dev with commandReceived := "" } _ hm b1 b2 b3 b4]
            split
            · exact ⟨runDispatcher_state _ _ _, runDispatcher_active _ _ _⟩
            · next hfalse => exact absurd (Or.inl rfl) hfalse
  · have hq : (parseCommand (dev.commandReceived ++
        String.mk (cs.takeWhile (fun c => !(c == '!'))))).primary = SDI12Cmd.kAddressQuery := by
      rcases hserv with h | h
      · exact absurd h hm
      · exact h
    rw [parseSdi12Cmd_wildcard { dev with commandReceived := "" } _ hm hq]
    split
    · exact ⟨runDispatcher_state _ _ _, runDispatcher_active _ _ _⟩
    · next hfalse => exact absurd (Or.inl rfl) hfalse


theorem formatOutputSDI_single (tok : String) (max : Nat) (buf : Nat → String)
    (h : tok.length < max) : formatOutputSDI [tok] max buf 0 = tok := by
  have hc : ((Function.update buf 0 "") 0).length + tok.length < max := by
    rw [Function.update_same]
    simpa using h
  have hck : chunkTokens max [tok] (Function.update buf 0 "") =
      (Function.update (Function.update buf 0 "") 0 ((Function.update buf 0 "") 0 ++ tok), 0) := by
    simp only [chunkTokens, List.foldl_cons, List.foldl_nil, chunkStep]
    rw [if_pos hc]
  show fillFrom (chunkTokens max [tok] (Function.update buf 0 "")).1
      (chunkTokens max [tok] (Function.update buf 0 "")).2
      (data_values_size - (chunkTokens max [tok] (Function.update buf 0 "")).2) 0 = tok
  rw [hck, fillFrom_apply, if_neg (by omega)]
  simp only [Function.update_same, String.empty_append]

/-- Claim C3: a bus break observed during a pending `aM!` measurement
cycle abandons the acquisition: only the immediate acknowledgment is
transmitted (no service-request line), all ten data-line buffers are set
to empty strings, the active flag is cleared, and a following `aD0!`
returns an empty body — the address and the terminator only. -/
theorem break_cancels_measurement (env : Env) (dev : DeviceState) (a : Char)
    (hmode : env.mode = DeviceMode_e.kModeAnalog)
    (hbreak : env.lineBreak = true)
    (haddr : dev.sensor.address = a)
    (ha : a ≠ '!')
    (hcr : dev.commandReceived = "") :
    (loopCycle env dev (BusInput.bytes [a, 'M', '!'])).2 =
      [Tx.resp (String.singleton a ++ "0021" ++ CRLF)] ∧
    (∀ i, i < DATA_OUT_BUFFER_ARR_SIZE →
      (loopCycle env dev (BusInput.bytes [a, 'M', '!'])).1.dataOut i = "") ∧
    (loopCycle env dev (BusInput.bytes [a, 'M', '!'])).1.sensor.active = false ∧
    (loopCycle env (loopCycle env dev (BusInput.bytes [a, 'M', '!'])).1
        (BusInput.bytes [a, 'D', '0', '!'])).2 = [Tx.resp (String.singleton a ++ CRLF)] := by
  obtain ⟨⟨a0, act, st, crc⟩, dataOut, values, cr⟩ := dev
  obtain ⟨mode, encode, crcA, crcB, an1, an2, lb, wt⟩ := env
  dsimp only at hmode hbreak haddr hcr
  subst hmode hbreak haddr hcr
  have hM := parseCommand_aM a0
  have hD := parseCommand_aD0 a0
  have hcyc1 : loopCycle
      ⟨DeviceMode_e.kModeAnalog, encode, crcA, crcB, an1, an2, true, wt⟩
      ⟨⟨a0, act, st, crc⟩, dataOut, values, ""⟩ (BusInput.bytes [a0, 'M', '!']) =
      (⟨⟨a0, false, SDI12SensorState_e.kStateReady, false⟩, clearTen dataOut,
          Function.update values 0 an1, ""⟩,
        [Tx.resp (String.singleton a0 ++ "0021" ++ CRLF)]) := by
    rw [loopCycle_bytes _ _ _ (by simp)]
    rw [show ("" : String) ++
        String.mk (List.takeWhile (fun c => !(c == '!')) [a0, 'M', '!']) = String.mk [a0, 'M'] from
      by simp [List.takeWhile_cons, ha]]
    rw [parseSdi12Cmd_active _ _ (by simp [hM]) (by simp [hM]) (by simp [hM]) (by simp [hM])
      (by simp [hM])]
    rw [hM]
    split
    · rfl
    · next hfalse => exact absurd (Or.inl rfl) hfalse
  rw [hcyc1]
  refine ⟨rfl, ?_, rfl, ?_⟩
  · intro i hi
    show clearTen dataOut i = ""
    simp only [clearTen]
    rw [if_pos hi]
  · rw [loopCycle_bytes _ _ _ (by simp)]
    rw [show ("" : String) ++
        String.mk (List.takeWhile (fun c => !(c == '!')) [a0, 'D', '0', '!']) =
          String.mk [a0, 'D', '0'] from by simp [List.takeWhile_cons, ha]]
    rw [parseSdi12Cmd_active _ _ (by simp [hD]) (by simp [hD]) (by simp [hD]) (by simp [hD])
      (by simp [hD])]
    rw [hD]
    split
    · rfl
    · next hfalse => exact absurd (Or.inl rfl) hfalse


/-- Claim C1: for a device with address `0` in Analog mode with one
measurement channel configured, servicing `0M!` transmits the immediate
acknowledgment `00021\r\n`, acquires the analog value into
`measurementValues[0]`, populates the data-line buffers with its encoded
token, and transmits the service-request line `0\r\n`; a subsequent `0D0!`
transmits `0` followed by the encoded analog value and the terminator.
Hypotheses: no break arrives during the measurement, no partial command is
pending, and the encoded token fits the 35-character M-class line limit
(always true of the bounded-width encoder). -/
theorem measurement_cycle (env : Env) (dev : DeviceState)
    (hmode : env.mode = DeviceMode_e.kModeAnalog)
    (hbreak : env.lineBreak = false)
    (haddr : dev.sensor.address = '0')
    (hcr : dev.commandReceived = "")
    (hlen : (env.encode env.analog1).length < SDI12_VALUES_STR_SIZE_35) :
    (loopCycle env dev (BusInput.bytes ['0', 'M', '!'])).2 =
      [Tx.resp "00021\r\n", Tx.resp "0\r\n"] ∧
    (loopCycle env dev (BusInput.bytes ['0', 'M', '!'])).1.values 0 = env.analog1 ∧
    (loopCycle env dev (BusInput.bytes ['0', 'M', '!'])).1.dataOut 0 =
      env.encode env.analog1 ∧
    (loopCycle env (loopCycle env dev (BusInput.bytes ['0', 'M', '!'])).1
        (BusInput.bytes ['0', 'D', '0', '!'])).2 =
      [Tx.resp ("0" ++ env.encode env.analog1 ++ CRLF)] := by
  obtain ⟨⟨a0, act, st, crc⟩, dataOut, values, cr⟩ := dev
  obtain ⟨mode, encode, crcA, crcB, an1, an2, lb, wt⟩ := env
  dsimp only at hmode hbreak haddr hcr hlen
  subst hmode hbreak haddr hcr
  have hcyc1 : loopCycle
      ⟨DeviceMode_e.kModeAnalog, encode, crcA, crcB, an1, an2, false, wt⟩
      ⟨⟨'0', act, st, crc⟩, dataOut, values, ""⟩ (BusInput.bytes ['0', 'M', '!']) =
      (⟨⟨'0', false, SDI12SensorState_e.kStateReady, false⟩,
        formatOutputSDICall
          ⟨DeviceMode_e.kModeAnalog, encode, crcA, crcB, an1, an2, false, wt⟩
          (Function.update values 0 an1) SDI12_VALUES_STR_SIZE_35 1 dataOut,
        Function.update values 0 an1, ""⟩,
        [Tx.resp "00021\r\n", Tx.resp "0\r\n"]) := rfl
  have hb : formatOutputSDICall
      ⟨DeviceMode_e.kModeAnalog, encode, crcA, crcB, an1, an2, false, wt⟩
      (Function.update values 0 an1) SDI12_VALUES_STR_SIZE_35 1 dataOut 0 = encode an1 := by
    show formatOutputSDI [encode an1] SDI12_VALUES_STR_SIZE_35 dataOut 0 = encode an1
    exact formatOutputSDI_single _ _ _ hlen
  rw [hcyc1]
  refine ⟨rfl, ?_, ?_, ?_⟩
  · show Function.update values 0 an1 0 = an1
    exact Function.update_same _ _ _
  · exact hb
  have hcyc2 : (loopCycle
      ⟨DeviceMode_e.kModeAnalog, encode, crcA, crcB, an1, an2, false, wt⟩
      ⟨⟨'0', false, SDI12SensorState_e.kStateReady, false⟩,
        formatOutputSDICall
          ⟨DeviceMode_e.kModeAnalog, encode, crcA, crcB, an1, an2, false, wt⟩
          (Function.update values 0 an1) SDI12_VALUES_STR_SIZE_35 1 dataOut,
        Function.update values 0 an1, ""⟩
      (BusInput.bytes ['0', 'D', '0', '!'])).2 =
      [Tx.resp ("0" ++
        formatOutputSDICall
          ⟨DeviceMode_e.kModeAnalog, encode, crcA, crcB, an1, an2, false, wt⟩
          (Function.update values 0 an1) SDI12_VALUES_STR_SIZE_35 1 dataOut 0 ++ CRLF)] := rfl
  rw [hcyc2, hb]


/-- Claim C7, counterexample: a device that has accumulated the fragment
`0M` and then sees a receive-buffer overflow still holds `0M` in
`commandReceived` after the cycle — the partially accumulated command is
not discarded as the claim states. -/
theorem overflow_retains_partial_command :
    (loopCycle envW devCR BusInput.overflow).2 = [] ∧
    (loopCycle envW devCR BusInput.overflow).1.commandReceived = "0M" ∧
    ¬ (loopCycle envW devCR BusInput.overflow).1.commandReceived = "" := by
  refine ⟨rfl, rfl, by decide⟩

/-- Witness for the amended C7 theorem at the concrete pending-fragment
device. -/
theorem overflow_preserves_witness :
    loopCycle envW devCR BusInput.overflow = (devCR, []) :=
  overflow_preserves envW devCR rfl

/-- Witness for C1 at the concrete analog environment (sample code 7,
token `+7.00000`). -/
theorem measurement_cycle_witness :
    (loopCycle envW devW (BusInput.bytes ['0', 'M', '!'])).2 =
      [Tx.resp "00021\r\n", Tx.resp "0\r\n"] ∧
    (loopCycle envW devW (BusInput.bytes ['0', 'M', '!'])).1.values 0 = envW.analog1 ∧
    (loopCycle envW devW (BusInput.bytes ['0', 'M', '!'])).1.dataOut 0 =
      envW.encode envW.analog1 ∧
    (loopCycle envW (loopCycle envW devW (BusInput.bytes ['0', 'M', '!'])).1
        (BusInput.bytes ['0', 'D', '0', '!'])).2 =
      [Tx.resp ("0" ++ envW.encode envW.analog1 ++ CRLF)] :=
  measurement_cycle envW devW rfl rfl rfl rfl (by decide)

/-- Witness for C2: `1M!` received by the idle device addressed `0`. -/
theorem unmatched_command_ignored_witness :
    (loopCycle envW devW (BusInput.bytes ['1', 'M', '!'])).2 = [] ∧
    (loopCycle envW devW (BusInput.bytes ['1', 'M', '!'])).1.sensor = devW.sensor :=
  unmatched_command_ignored envW devW ['1', 'M', '!'] rfl (by decide) (by decide) (by decide)

/-- Witness for C3 at the concrete analog environment with a line break
observed during the measurement. -/
theorem break_cancels_measurement_witness :
    (loopCycle envWB devW (BusInput.bytes ['0', 'M', '!'])).2 =
      [Tx.resp (String.singleton '0' ++ "0021" ++ CRLF)] ∧
    (∀ i, i < DATA_OUT_BUFFER_ARR_SIZE →
      (loopCycle envWB devW (BusInput.bytes ['0', 'M', '!'])).1.dataOut i = "") ∧
    (loopCycle envWB devW (BusInput.bytes ['0', 'M', '!'])).1.sensor.active = false ∧
    (loopCycle envWB (loopCycle envWB devW (BusInput.bytes ['0', 'M', '!'])).1
        (BusInput.bytes ['0', 'D', '0', '!'])).2 = [Tx.resp (String.singleton '0' ++ CRLF)] :=
  break_cancels_measurement envWB devW '0' rfl rfl rfl (by decide) rfl

/-- Witness for C4: the `0M!` cycle on the idle device. -/
theorem cycle_resets_to_ready_witness :
    (loopCycle envW devW (BusInput.bytes ['0', 'M', '!'])).1.sensor.state =
      SDI12SensorState_e.kStateReady ∧
    (loopCycle envW devW (BusInput.bytes ['0', 'M', '!'])).1.sensor.active = false :=
  cycle_resets_to_ready envW devW ['0', 'M', '!'] (by decide) (Or.inl (by decide))

/-- Witness for C8 at the concrete idle device. -/
theorem addressChange_rebinds_witness :
    (loopCycle envW devW (BusInput.bytes ['0', 'A', '5', '!'])).2 = [Tx.resp ("5" ++ CRLF)] ∧
    (loopCycle envW devW (BusInput.bytes ['0', 'A', '5', '!'])).1.sensor.address = '5' ∧
    (loopCycle envW devW (BusInput.bytes ['0', 'A', '5', '!'])).1.sensor.active = false ∧
    (∀ c : SDI12CommandSet_s,
      cmdMatches (loopCycle envW devW (BusInput.bytes ['0', 'A', '5', '!'])).1.sensor c ↔
        (c.address = '5' ∨ c.primary = SDI12Cmd.kAddressQuery)) ∧
    (loopCycle envW (loopCycle envW devW (BusInput.bytes ['0', 'A', '5', '!'])).1
        (BusInput.bytes ['0', '!'])).2 = [] ∧
    (loopCycle envW (loopCycle envW devW (BusInput.bytes ['0', 'A', '5', '!'])).1
        (BusInput.bytes ['5', '!'])).2 = [Tx.resp ("5" ++ CRLF)] ∧
    (loopCycle envW (loopCycle envW devW (BusInput.bytes ['0', 'A', '5', '!'])).1
        (BusInput.bytes ['?', '!'])).2 = [Tx.resp ("5" ++ CRLF)] :=
  addressChange_rebinds envW devW rfl rfl

/-- Witness for C9 at the concrete idle device. -/
theorem addressQuery_idempotent_witness :
    loopCycle envW devW (BusInput.bytes ['?', '!']) =
      (devW, [Tx.resp (String.singleton devW.sensor.address ++ CRLF)]) :=
  addressQuery_idempotent envW devW rfl rfl rfl (by decide)

/-- Witness for C10: `0HA!` on the idle device clears the first and the
last data line. -/
theorem highVolume_clears_lines_witness :
    (loopCycle envW devW (BusInput.bytes ['0', 'H', 'A', '!'])).1.dataOut 0 = "" ∧
    (loopCycle envW devW (BusInput.bytes ['0', 'H', 'A', '!'])).1.dataOut 9 = "" :=
  ⟨highVolume_clears_lines envW devW ['0', 'H', 'A', '!'] (by decide) (by decide) (by decide)
      0 (by decide),
    highVolume_clears_lines envW devW ['0', 'H', 'A', '!'] (by decide) (by decide) (by decide)
      9 (by decide)⟩

end SDI12Adapter